import Mathlib

/-!
Shallow embedding of `src/base64Loader.js` (squirrel-forge/node-sass-base64-loader).

The JS module resolves a source reference (local path or http/https URL) to a
byte buffer, determines a mimetype, and returns a double-quoted `data:` URI
with the base64-encoded content, caching results keyed by the raw source
string.  File system, network fetch and content sniffing are external
effects; they are modelled as explicit oracle fields of an `Env` record, and
every pipeline function additionally returns the list of I/O events it
performed, so that "no I/O happens" claims are statements about that trace.
Machine bytes are `Nat` values `< 256`; JS strings are Lean `String`s;
`null`/`undefined` become `Option`; thrown errors become `Except String`
carrying the exact message text the source builds.
-/

/-- The standard base64 alphabet used by Node's `Buffer.toString('base64')`. -/
def base64Alphabet : List Char :=
  "ABCDEFGHIJKLMNOPQRSTUVWXYZabcdefghijklmnopqrstuvwxyz0123456789+/".data

/-- Character for a 6-bit group. -/
def base64Char (n : Nat) : Char := base64Alphabet.getD n 'A'

/-- Index of a character in the base64 alphabet (64 for characters outside it). -/
def base64Val (c : Char) : Nat := base64Alphabet.indexOf c

/-- RFC 4648 base64 encoding of a byte list, three bytes at a time with `=`
padding — the behaviour of `Buffer.toString('base64')` (no line breaks). -/
def encodeB64Chars : List Nat → List Char
  | [] => []
  | [a] => [base64Char (a / 4), base64Char (a % 4 * 16), '=', '=']
  | [a, b] => [base64Char (a / 4), base64Char (a % 4 * 16 + b / 16),
               base64Char (b % 16 * 4), '=']
  | a :: b :: c :: rest =>
    base64Char (a / 4) :: base64Char (a % 4 * 16 + b / 16) ::
    base64Char (b % 16 * 4 + c / 64) :: base64Char (c % 64) :: encodeB64Chars rest

/-- Base64 decoding of a character list, four characters at a time, honouring
`=` padding.  Inverse of `encodeB64Chars` on well-formed input. -/
def decodeB64Chars : List Char → List Nat
  | c1 :: c2 :: c3 :: c4 :: rest =>
    let v1 := base64Val c1
    let v2 := base64Val c2
    let v3 := base64Val c3
    let v4 := base64Val c4
    if c3 = '=' then [v1 * 4 + v2 / 16]
    else if c4 = '=' then [v1 * 4 + v2 / 16, v2 % 16 * 16 + v3 / 4]
    else (v1 * 4 + v2 / 16) :: (v2 % 16 * 16 + v3 / 4) :: (v3 % 4 * 64 + v4) ::
         decodeB64Chars rest
  | _ => []

/-- `Buffer.toString('base64')` as a `String`. -/
def bufferToBase64 (buf : List Nat) : String := String.mk (encodeB64Chars buf)

/-- Base64-decode the payload of an output string back to bytes. -/
def decodeBase64 (s : String) : List Nat := decodeB64Chars s.data

/-- `p` is a prefix of `s` — kernel-friendly form of `String.startsWith`. -/
def strStartsWith (s p : String) : Bool := p.data.isPrefixOf s.data

/-- Host part of what follows `http://` / `https://`: characters up to the
first `/`, `?` or `#`. -/
def urlHostChars : List Char → List Char
  | [] => []
  | c :: rest => if c = '/' || c = '?' || c = '#' then [] else c :: urlHostChars rest

/-- Source lines 33-41.  Models `new URL(str)` success followed by the
`protocol === 'http:' || protocol === 'https:'` check: a WHATWG URL with the
special scheme http/https must have the `//` and a nonempty host, any parse
failure or other scheme yields `false`.  (Scheme case folding and whitespace
stripping of the builtin parser are outside the model's scope.) -/
def isUrl (str : String) : Bool :=
  if strStartsWith str "http://" then !(urlHostChars (str.data.drop 7)).isEmpty
  else if strStartsWith str "https://" then !(urlHostChars (str.data.drop 8)).isEmpty
  else false

/-- A configured cache: either a plain key/value object (`cache[source]`) or an
accessor object exposing `get`/`set`; both are association lists from the raw
source string to the stored output string, looked up first-match so that a
prepended entry overwrites an older one. -/
inductive Cache where
  | map (entries : List (String × String))
  | accessor (entries : List (String × String))
deriving DecidableEq

/-- The raw value the cache yields for a key before any truthiness check:
`cache.get ? cache.get( source ) : cache[ source ]`. -/
def cacheRawValue (source : String) (cache : Cache) : Option String :=
  match cache with
  | .accessor entries => entries.lookup source
  | .map entries => entries.lookup source

/-- Source lines 50-54: `if ( value ) return value; return null;` — a stored
empty string is falsy in JS and is reported as a miss. -/
def _internal_base64load_fromCache (source : String) (cache : Cache) : Option String :=
  match cacheRawValue source cache with
  | some v => if v.data.isEmpty then none else some v
  | none => none

/-- Source lines 64-70: store `value` under the raw `source` key (object key
assignment overwrites; modelled by prepending, since lookup is first-match). -/
def _internal_base64load_toCache (source value : String) (cache : Cache) : Cache :=
  match cache with
  | .accessor entries => .accessor ((source, value) :: entries)
  | .map entries => .map ((source, value) :: entries)

/-- Merged loader options (`Base64loadOptions` typedef, lines 326-331).
`cache = none` models a falsy (null) cache, skipping caching entirely. -/
structure Base64loadOptions where
  detect : Bool
  remote : Bool
  cwd : Option String
  cache : Option Cache
deriving DecidableEq

/-- A node of the modelled file system: `lstatSync` finds a regular file with
some bytes, or something that is not a regular file (directory etc.). -/
inductive FsNode where
  | file (bytes : List Nat)
  | other
deriving DecidableEq

/-- Response object of a successful `node-fetch` promise. -/
structure FetchResponse where
  ok : Bool
  status : Nat
  statusText : String
  body : List Nat
  contentType : Option String
deriving DecidableEq

/-- Outcome of awaiting `fetch(source)`: a response, or a rejected promise. -/
inductive FetchOutcome where
  | success (response : FetchResponse)
  | netError (msg : String)
deriving DecidableEq

/-- The lazily required `file-type` module: sniff a mimetype from a byte
buffer or from a file path (`none` when inconclusive). -/
structure FileTypeModule where
  fromBuffer : List Nat → Option String
  fromFile : String → Option String

/-- External world: file system, process working directory, and the two
optional capabilities (`none` models the module not being installed,
mirroring `requireOptional` with `fatal = true`). -/
structure Env where
  fs : String → Option FsNode
  procCwd : String
  fetch : Option (String → FetchOutcome)
  fileType : Option FileTypeModule

/-- One observable I/O action of the pipeline. -/
inductive TraceEvent where
  | lstat (path : String)
  | readFile (path : String)
  | fetch (url : String)
  | sniffBuffer
  | sniffFile (path : String)
deriving DecidableEq

/-- Whether a trace event is a network request. -/
def TraceEvent.isFetch : TraceEvent → Bool
  | .fetch _ => true
  | _ => false

/-- `Base64loadFileResult` typedef (lines 72-77). -/
structure FileResult where
  file : String
  file_buffer : List Nat
  mimetype : Option String
deriving DecidableEq

/-- JS template-literal interpolation of a `null | string` value
(`null` prints as `"null"`). -/
def jsTemplateOptStr : Option String → String
  | some s => s
  | none => "null"

/-- `!mime || !mime.length` — the mimetype is absent or the empty string. -/
def mimeMissing : Option String → Bool
  | none => true
  | some s => s.data.isEmpty

/-- JS truthiness of a `null | string` value (`null` and `""` are falsy). -/
def jsTruthyOptStr : Option String → Bool
  | none => false
  | some s => !s.data.isEmpty

/-- Node `path.normalize` on an absolute POSIX path: split on `/`, drop empty
and `.` segments, let `..` pop (a no-op at the root), and rejoin. -/
def splitSlash : List Char → List (List Char)
  | [] => [[]]
  | c :: rest =>
    match splitSlash rest with
    | h :: t => if c = '/' then [] :: h :: t else (c :: h) :: t
    | [] => if c = '/' then [[], []] else [[c]]

/-- Join path segments with `/`. -/
def joinSegs : List String → String
  | [] => ""
  | [x] => x
  | x :: rest => x ++ "/" ++ joinSegs rest

/-- Normalization step shared by `pathResolve`. -/
def pathNormalize (s : String) : String :=
  let segs := (splitSlash s.data).map (fun l => String.mk l)
  let norm := segs.foldl
    (fun acc p =>
      if p = "" || p = "." then acc
      else if p = ".." then acc.dropLast
      else acc ++ [p]) []
  "/" ++ joinSegs norm

/-- Node `path.resolve(a, b)` with the POSIX separator: rightmost absolute
path wins, a relative chain is finally resolved against the (absolute)
process working directory, and the result is normalized. -/
def pathResolve (procCwd a b : String) : String :=
  if strStartsWith b "/" then pathNormalize b
  else if strStartsWith a "/" then pathNormalize (a ++ "/" ++ b)
  else pathNormalize (procCwd ++ "/" ++ a ++ "/" ++ b)

/-- Source lines 89-98: the file path the local resolver will stat and read.
`const cwd = options.cwd || process.cwd();` — an absent or empty (falsy)
`cwd` option falls back to the process working directory; a source that
starts with the path separator is used verbatim, otherwise
`path.resolve( cwd, source )`. -/
def _internal_base64load_resolved_file (source : String) (options : Base64loadOptions)
    (procCwd : String) : String :=
  let cwd := match options.cwd with
    | some c => if c.data.isEmpty then procCwd else c
    | none => procCwd
  if strStartsWith source "/" then source
  else pathResolve procCwd cwd source

/-- Source lines 87-114, `_internal_base64load_resolve_source_sync`: resolve
the path, require `lstatSync(file).isFile()` (a stat failure or a non-file
is "not found"), then `readFileSync`.  The trace records the stat and, when
it happens, the read. -/
def _internal_base64load_resolve_source_sync (source : String)
    (options : Base64loadOptions) (env : Env) :
    Except String FileResult × List TraceEvent :=
  let file := _internal_base64load_resolved_file source options env.procCwd
  match env.fs file with
  | some (.file bytes) =>
    (.ok { file := file, file_buffer := bytes, mimetype := none },
     [.lstat file, .readFile file])
  | _ =>
    (.error ("base64load(" ++ source ++ ",$mimetype) File not found: " ++ file),
     [.lstat file])

/-- `if ( x && x.mime ) mime = x.mime;` — adopt a sniffing result only when
it is truthy. -/
def adoptSniffed (old : Option String) (found : Option String) : Option String :=
  match found with
  | some m => if m.data.isEmpty then old else some m
  | none => old

/-- Source lines 126-156, `_internal_base64load_get_mimetype_async`: when a
buffer or path is available and the mimetype is missing, require the
`file-type` module (its absence throws `Requires file-type@^16.5.3`), sniff
the buffer first and then, if still missing, the path; finally fail if no
mimetype was produced, else return it. -/
def _internal_base64load_get_mimetype_async (source : String) (mime : Option String)
    (file_buffer : Option (List Nat)) (file : Option String) (env : Env) :
    Except String String × List TraceEvent :=
  let detected : Except String (Option String × List TraceEvent) :=
    if (file.isSome || file_buffer.isSome) && mimeMissing mime then
      match env.fileType with
      | none => .error "Requires file-type@^16.5.3"
      | some ft =>
        let step1 : Option String × List TraceEvent :=
          match file_buffer with
          | some buf => (adoptSniffed mime (ft.fromBuffer buf), [.sniffBuffer])
          | none => (mime, [])
        let step2 : Option String × List TraceEvent :=
          match file with
          | some f =>
            if mimeMissing step1.1 then
              (adoptSniffed step1.1 (ft.fromFile f), [.sniffFile f])
            else (step1.1, [])
          | none => (step1.1, [])
        .ok (step2.1, step1.2 ++ step2.2)
    else .ok (mime, [])
  match detected with
  | .error e => (.error e, [])
  | .ok (m, ev) =>
    match m with
    | some s =>
      if s.data.isEmpty then
        (.error ("base64load(" ++ source ++ ",$mimetype) Failed to detect $mimetype from $source"), ev)
      else (.ok s, ev)
    | none =>
      (.error ("base64load(" ++ source ++ ",$mimetype) Failed to detect $mimetype from $source"), ev)

/-- Source lines 207-211, factored tail of the async resolver: run mimetype
detection on the resolved bytes and build the `FileResult` (whose `file`
field is the raw `source`, line 211). -/
def finishResolveAsync (source : String) (mime : Option String) (buf : List Nat)
    (file_path : Option String) (env : Env) (ev : List TraceEvent) :
    Except String FileResult × List TraceEvent :=
  match _internal_base64load_get_mimetype_async source mime (some buf) file_path env with
  | (.error e, ev2) => (.error e, ev ++ ev2)
  | (.ok m, ev2) => (.ok { file := source, file_buffer := buf, mimetype := some m }, ev ++ ev2)

/-- Source lines 167-212, `_internal_base64load_resolve_source_async`: a URL
source requires `options.remote` (else the remote-disabled error, thrown
before `node-fetch` is even required), then fetches — a rejected promise or a
non-ok response is an error; the `content-type` header is adopted only when
the caller supplied no mimetype.  A non-URL source goes through the sync
local resolver.  Both branches end in mimetype detection. -/
def _internal_base64load_resolve_source_async (source : String) (mime : Option String)
    (options : Base64loadOptions) (env : Env) :
    Except String FileResult × List TraceEvent :=
  if isUrl source then
    if !options.remote then
      (.error ("base64load(" ++ source ++ ",$mimetype) To use remote url loading, set remote = true in your options"), [])
    else
      match env.fetch with
      | none => (.error "Requires node-fetch@^2.6.7", [])
      | some fetchFn =>
        match fetchFn source with
        | .netError err =>
          (.error ("base64load(" ++ source ++ ",$mimetype) Internal error fetching $source: " ++ err),
           [.fetch source])
        | .success result =>
          if !result.ok then
            (.error ("base64load(" ++ source ++ ",$mimetype) Error " ++ toString result.status
              ++ "#" ++ result.statusText ++ " while fetching $source"), [.fetch source])
          else
            let mime' := if mimeMissing mime then result.contentType else mime
            finishResolveAsync source mime' result.body none env [.fetch source]
  else
    match _internal_base64load_resolve_source_sync source options env with
    | (.error e, ev) => (.error e, ev)
    | (.ok fr, ev) => finishResolveAsync source mime fr.file_buffer (some fr.file) env ev

/-- `const cached = options.cache ? _internal_base64load_fromCache( source, options.cache ) : null;` -/
def _internal_cached_lookup (oc : Option Cache) (source : String) : Option String :=
  match oc with
  | some cache => _internal_base64load_fromCache source cache
  | none => none

instance exceptDecidableEq {ε α : Type} [DecidableEq ε] [DecidableEq α] :
    DecidableEq (Except ε α) := fun x y =>
  match x, y with
  | .ok a, .ok b =>
    if h : a = b then .isTrue (by rw [h])
    else .isFalse (fun hh => h (Except.ok.inj hh))
  | .error a, .error b =>
    if h : a = b then .isTrue (by rw [h])
    else .isFalse (fun hh => h (Except.error.inj hh))
  | .ok _, .error _ => .isFalse (fun hh => Except.noConfusion hh)
  | .error _, .ok _ => .isFalse (fun hh => Except.noConfusion hh)

/-- Result of one encoder-core call: the returned text (or thrown message),
the cache object afterwards, and the I/O trace. -/
structure EncodeResult where
  result : Except String String
  cache : Option Cache
  events : List TraceEvent
deriving DecidableEq

/-- Source lines 222-237, `_internal_base64load_sync`: cache hit returns the
stored string at once (no events); otherwise resolve locally, build
`"data:MIME;base64,PAYLOAD"` with literal double quotes (the mimetype is the
caller's value, interpolated as JS would), and store it when a cache is
configured. -/
def _internal_base64load_sync (source : String) (mime : Option String)
    (options : Base64loadOptions) (env : Env) : EncodeResult :=
  match _internal_cached_lookup options.cache source with
  | some v => { result := .ok v, cache := options.cache, events := [] }
  | none =>
    match _internal_base64load_resolve_source_sync source options env with
    | (.error e, ev) => { result := .error e, cache := options.cache, events := ev }
    | (.ok fr, ev) =>
      let output := "\"data:" ++ jsTemplateOptStr mime ++ ";base64,"
        ++ bufferToBase64 fr.file_buffer ++ "\""
      let newCache := match options.cache with
        | some cache => some (_internal_base64load_toCache source output cache)
        | none => none
      { result := .ok output, cache := newCache, events := ev }

/-- Source lines 247-262, `_internal_base64load_async`: same shape as the
sync variant, resolving through the async resolver and using the resolved
mimetype in the output. -/
def _internal_base64load_async (source : String) (mime : Option String)
    (options : Base64loadOptions) (env : Env) : EncodeResult :=
  match _internal_cached_lookup options.cache source with
  | some v => { result := .ok v, cache := options.cache, events := [] }
  | none =>
    match _internal_base64load_resolve_source_async source mime options env with
    | (.error e, ev) => { result := .error e, cache := options.cache, events := ev }
    | (.ok fr, ev) =>
      let output := "\"data:" ++ jsTemplateOptStr fr.mimetype ++ ";base64,"
        ++ bufferToBase64 fr.file_buffer ++ "\""
      let newCache := match options.cache with
        | some cache => some (_internal_base64load_toCache source output cache)
        | none => none
      { result := .ok output, cache := newCache, events := ev }

/-- A raw sass argument value: a `SassString`, the `sassNull` singleton, or
any other sass value (number, list, ...). -/
inductive SassValue where
  | str (text : String)
  | null
  | other
deriving DecidableEq

/-- `Base64loadArguments` typedef (lines 264-268). -/
structure Base64loadArguments where
  source : String
  mime : Option String
deriving DecidableEq

/-- Second disjunct of the line-298 check,
`mime && ( typeof mime !== 'string' || !mime.length )`: the extracted `.text`
of a `SassString` always has `typeof` `'string'`, so that subterm is
constantly false, and the whole disjunct short-circuits to false whenever
`mime` is falsy (null or empty). -/
def mimeSecondDisjunct (mime : Option String) : Bool :=
  jsTruthyOptStr mime &&
    (false || (match mime with
      | some s => s.data.isEmpty
      | none => true))

/-- Source lines 278-304, `_internal_base64load_valid_arguments`: the first
value must be a `SassString` with nonempty text; a URL source in sync mode
is rejected; the second value is `null` (carried as none) or a `SassString`
(`assertString` throws on anything else — modelled with the sass library's
own message, which this module does not construct); then the line-298
mimetype check runs. -/
def _internal_base64load_valid_arguments (arg0 arg1 : SassValue) (sync : Bool) :
    Except String Base64loadArguments :=
  match arg0 with
  | .str source =>
    if source.data.isEmpty then
      .error "base64load($source,$mimetype) Invalid $source argument"
    else if sync && isUrl source then
      .error ("base64load(" ++ source ++ ",$mimetype) To use the async variant for url loading, set remote = true in your options")
    else
      match (match arg1 with
        | .null => Except.ok (none : Option String)
        | .str t => .ok (some t)
        | .other => .error "mime: value is not a string") with
      | .error e => .error e
      | .ok mime =>
        if (sync && !jsTruthyOptStr mime) || mimeSecondDisjunct mime then
          .error ("base64load(" ++ source ++ ",$mimetype) Requires $mimetype argument"
            ++ (if sync then " in sync mode" else ""))
        else .ok { source := source, mime := mime }
  | _ => .error "base64load($source,$mimetype) Invalid $source argument type"

/-- Source lines 337-342, `BASE64LOAD_DEFAULT_OPTIONS`. -/
def BASE64LOAD_DEFAULT_OPTIONS : Base64loadOptions :=
  { detect := false, remote := false, cwd := none, cache := some (Cache.map []) }

/-- Source line 348, `SASS_FUNCTION_SIGNATURE`. -/
def SASS_FUNCTION_SIGNATURE : String := "base64load($source,$mimetype:null)"

/-- Which of the two handlers the factory picked. -/
inductive CallbackKind where
  | sync
  | async
deriving DecidableEq

/-- The `{ signature, callback }` record returned by the factory. -/
structure SassHandler where
  signature : String
  callback : CallbackKind
deriving DecidableEq

/-- A host (sass) configuration object: its `functions` table may be absent
(`none`), in which case the factory creates it. -/
structure SassConfig where
  functions : Option (List (String × CallbackKind))
deriving DecidableEq

/-- Caller-supplied options: each field overrides the default when present,
mirroring `Object.assign( local_options, options )`. -/
structure Base64loadOptionsInput where
  detect : Option Bool := none
  remote : Option Bool := none
  cwd : Option (Option String) := none
  cache : Option (Option Cache) := none
deriving DecidableEq

/-- Merge supplied options over the defaults (lines 359-364). -/
def mergeBase64loadOptions (o : Option Base64loadOptionsInput) : Base64loadOptions :=
  match o with
  | none => BASE64LOAD_DEFAULT_OPTIONS
  | some i =>
    { detect := i.detect.getD BASE64LOAD_DEFAULT_OPTIONS.detect,
      remote := i.remote.getD BASE64LOAD_DEFAULT_OPTIONS.remote,
      cwd := i.cwd.getD BASE64LOAD_DEFAULT_OPTIONS.cwd,
      cache := i.cache.getD BASE64LOAD_DEFAULT_OPTIONS.cache }

/-- Source lines 356-434, the exported `base64Loader` factory: merge options,
pick the async callback iff `remote || detect`, and, when a host config is
supplied, create its `functions` table if absent, refuse a signature that is
already registered, and insert the callback under `SASS_FUNCTION_SIGNATURE`.
Returns the handler and the (possibly mutated) host config. -/
def base64Loader (options : Option Base64loadOptionsInput)
    (sassConfig : Option SassConfig) :
    Except String (SassHandler × Option SassConfig) :=
  let local_options := mergeBase64loadOptions options
  let handler : SassHandler :=
    { signature := SASS_FUNCTION_SIGNATURE,
      callback := if local_options.remote || local_options.detect then .async else .sync }
  match sassConfig with
  | none => .ok (handler, none)
  | some so =>
    let fns := match so.functions with
      | some fns => fns
      | none => []
    match fns.lookup SASS_FUNCTION_SIGNATURE with
    | some _ => .error "Sass function signature already defined"
    | none =>
      .ok (handler, some { functions := some ((SASS_FUNCTION_SIGNATURE, handler.callback) :: fns) })

/-- Concrete test world: one local file `/b/a.png` with bytes `[71, 73, 70]`
("GIF"); neither optional capability installed. -/
def envA : Env :=
  { fs := fun p => if p = "/b/a.png" then some (.file [71, 73, 70]) else none,
    procCwd := "/c", fetch := none, fileType := none }

/-- Concrete test world whose transport stub would reject any request — used
to exhibit that no request is ever issued on a gated path. -/
def envB : Env :=
  { fs := fun _ => none, procCwd := "/c",
    fetch := some (fun _ => .netError "transport invoked"),
    fileType := none }

/-- Concrete test options: base dir `/b`, empty plain-object cache. -/
def optsA : Base64loadOptions :=
  { detect := false, remote := false, cwd := some "/b", cache := some (.map []) }

/-- Concrete test options whose cache associates the key `a.png` with the
empty string — a falsy stored value. -/
def optsC : Base64loadOptions :=
  { detect := false, remote := false, cwd := some "/b",
    cache := some (.map [("a.png", "")]) }

@[simp] theorem strData_append (a b : String) : (a ++ b).data = a.data ++ b.data := rfl

theorem base64Val_base64Char : ∀ n, n < 64 → base64Val (base64Char n) = n := by decide

theorem base64Char_ne_pad : ∀ n, n < 64 → base64Char n ≠ '=' := by decide

theorem decode_encode_b64 :
    ∀ l : List Nat, (∀ x ∈ l, x < 256) → decodeB64Chars (encodeB64Chars l) = l
  | [], _ => rfl
  | [a], h => by
    have ha : a < 256 := h a (List.mem_singleton_self a)
    have h1 := base64Val_base64Char (a / 4) (by omega)
    have h2 := base64Val_base64Char (a % 4 * 16) (by omega)
    show decodeB64Chars [base64Char (a / 4), base64Char (a % 4 * 16), '=', '='] = [a]
    simp only [decodeB64Chars, if_pos, h1, h2, List.cons.injEq, and_true]
    omega
  | [a, b], h => by
    have ha : a < 256 := h a (by simp)
    have hb : b < 256 := h b (by simp)
    have h1 := base64Val_base64Char (a / 4) (by omega)
    have h2 := base64Val_base64Char (a % 4 * 16 + b / 16) (by omega)
    have h3 := base64Val_base64Char (b % 16 * 4) (by omega)
    have hne := base64Char_ne_pad (b % 16 * 4) (by omega)
    show decodeB64Chars [base64Char (a / 4), base64Char (a % 4 * 16 + b / 16),
      base64Char (b % 16 * 4), '='] = [a, b]
    simp only [decodeB64Chars, if_neg hne, if_pos, h1, h2, h3, List.cons.injEq, and_true]
    omega
  | a :: b :: c :: rest, h => by
    have ha : a < 256 := h a (by simp)
    have hb : b < 256 := h b (by simp)
    have hc : c < 256 := h c (by simp)
    have ih := decode_encode_b64 rest (fun x hx => h x (by simp [hx]))
    have h1 := base64Val_base64Char (a / 4) (by omega)
    have h2 := base64Val_base64Char (a % 4 * 16 + b / 16) (by omega)
    have h3 := base64Val_base64Char (b % 16 * 4 + c / 64) (by omega)
    have h4 := base64Val_base64Char (c % 64) (by omega)
    have hne3 := base64Char_ne_pad (b % 16 * 4 + c / 64) (by omega)
    have hne4 := base64Char_ne_pad (c % 64) (by omega)
    show decodeB64Chars (base64Char (a / 4) :: base64Char (a % 4 * 16 + b / 16) ::
      base64Char (b % 16 * 4 + c / 64) :: base64Char (c % 64) :: encodeB64Chars rest)
      = a :: b :: c :: rest
    simp only [decodeB64Chars, if_neg hne3, if_neg hne4, h1, h2, h3, h4, ih,
      List.cons.injEq, and_true]
    omega

theorem bufferToBase64_roundtrip (l : List Nat) (h : ∀ x ∈ l, x < 256) :
    decodeBase64 (bufferToBase64 l) = l := decode_encode_b64 l h

theorem str_infix_parts (x m : String) (l1 l2 : List Char)
    (h : l1 ++ x.data ++ l2 = m.data) : x.data <:+: m.data := ⟨l1, l2, h⟩

theorem output_data_ne_empty (m payload : String) :
    ("\"data:" ++ m ++ ";base64," ++ payload ++ "\"").data.isEmpty = false := rfl

theorem fromCache_toCache (source v : String) (c : Cache) (hv : v.data.isEmpty = false) :
    _internal_base64load_fromCache source (_internal_base64load_toCache source v c) = some v := by
  cases c <;>
    simp [_internal_base64load_toCache, _internal_base64load_fromCache, cacheRawValue,
      List.lookup, hv]

theorem fromCache_falsy_raw (source : String) (c : Cache)
    (h : cacheRawValue source c = none ∨ cacheRawValue source c = some "") :
    _internal_base64load_fromCache source c = none := by
  unfold _internal_base64load_fromCache
  rcases h with h | h <;> rw [h]
  rfl

theorem sync_ok_cached (source : String) (mime : Option String)
    (opts : Base64loadOptions) (c : Cache) (env : Env) (v : String)
    (hc : opts.cache = some c)
    (hok : (_internal_base64load_sync source mime opts env).result = .ok v) :
    ∃ c', (_internal_base64load_sync source mime opts env).cache = some c' ∧
      _internal_base64load_fromCache source c' = some v := by
  cases hcl : _internal_cached_lookup opts.cache source with
  | some w =>
    simp only [_internal_base64load_sync, hcl] at hok ⊢
    refine ⟨c, by rw [hc], ?_⟩
    rw [hc] at hcl
    simpa [_internal_cached_lookup] using hcl.trans (by simpa using hok)
  | none =>
    rcases hres : _internal_base64load_resolve_source_sync source opts env with ⟨r, ev⟩
    cases r with
    | error e => simp [_internal_base64load_sync, hcl, hres] at hok
    | ok fr =>
      simp only [_internal_base64load_sync, hcl, hres] at hok ⊢
      simp only [Except.ok.injEq] at hok
      subst hok
      rw [hc]
      exact ⟨_, rfl, fromCache_toCache _ _ _ (output_data_ne_empty _ _)⟩

theorem async_ok_cached (source : String) (mime : Option String)
    (opts : Base64loadOptions) (c : Cache) (env : Env) (v : String)
    (hc : opts.cache = some c)
    (hok : (_internal_base64load_async source mime opts env).result = .ok v) :
    ∃ c', (_internal_base64load_async source mime opts env).cache = some c' ∧
      _internal_base64load_fromCache source c' = some v := by
  cases hcl : _internal_cached_lookup opts.cache source with
  | some w =>
    simp only [_internal_base64load_async, hcl] at hok ⊢
    refine ⟨c, by rw [hc], ?_⟩
    rw [hc] at hcl
    simpa [_internal_cached_lookup] using hcl.trans (by simpa using hok)
  | none =>
    rcases hres : _internal_base64load_resolve_source_async source mime opts env with ⟨r, ev⟩
    cases r with
    | error e => simp [_internal_base64load_async, hcl, hres] at hok
    | ok fr =>
      simp only [_internal_base64load_async, hcl, hres] at hok ⊢
      simp only [Except.ok.injEq] at hok
      subst hok
      rw [hc]
      exact ⟨_, rfl, fromCache_toCache _ _ _ (output_data_ne_empty _ _)⟩

/-- C1: once a first successful `encodeSync` (resp. `encodeAsync`) call with a
given source+mime pair has populated the configured cache, a second call with
the same pair on the resulting cache returns the byte-identical output
immediately from the lookup keyed by the raw source string: its whole result
is `ok v` with an empty I/O trace (no file or network access, no re-validation
or mimetype re-check), for an arbitrary second-world `env₂`. -/
theorem C1_cache_idempotent (source : String) (mime : Option String)
    (opts : Base64loadOptions) (c : Cache) (env env₂ : Env) (v : String)
    (hc : opts.cache = some c) :
    ((_internal_base64load_sync source mime opts env).result = .ok v →
      (_internal_base64load_sync source mime
          { opts with cache := (_internal_base64load_sync source mime opts env).cache } env₂)
        = { result := .ok v,
            cache := (_internal_base64load_sync source mime opts env).cache,
            events := [] }) ∧
    ((_internal_base64load_async source mime opts env).result = .ok v →
      (_internal_base64load_async source mime
          { opts with cache := (_internal_base64load_async source mime opts env).cache } env₂)
        = { result := .ok v,
            cache := (_internal_base64load_async source mime opts env).cache,
            events := [] }) := by
  constructor
  · intro hok
    obtain ⟨c', hcache, hfrom⟩ := sync_ok_cached source mime opts c env v hc hok
    rw [hcache]
    simp [_internal_base64load_sync, _internal_cached_lookup, hfrom]
  · intro hok
    obtain ⟨c', hcache, hfrom⟩ := async_ok_cached source mime opts c env v hc hok
    rw [hcache]
    simp [_internal_base64load_async, _internal_cached_lookup, hfrom]

/-- Witness for C1: in the concrete world `envA`, after a first successful
sync encode of `a.png`, the second call returns the identical string with an
empty trace. -/
theorem C1_cache_idempotent_witness :
    (_internal_base64load_sync "a.png" (some "image/gif")
        { optsA with cache := (_internal_base64load_sync "a.png" (some "image/gif") optsA envA).cache } envA)
      = { result := .ok "\"data:image/gif;base64,R0lG\"",
          cache := (_internal_base64load_sync "a.png" (some "image/gif") optsA envA).cache,
          events := [] } :=
  (C1_cache_idempotent "a.png" (some "image/gif") optsA (.map []) envA envA
    "\"data:image/gif;base64,R0lG\"" rfl).1 (by decide)

/-- C2: a successful encode whose resolution produced byte buffer `B` and
whose final mimetype is `M` returns exactly the double-quoted string
`"data:M;base64,base64(B)"` (the two `"` are literal characters of the
text), and base64-decoding the payload reproduces `B` exactly — for the sync
variant (where `M` is the caller's mimetype) and for the async variant
(where `M` is the resolved `FileResult` mimetype). -/
theorem C2_output_roundtrip (source M : String) (opts : Base64loadOptions)
    (env : Env) (B : List Nat) (f : String) (ev ev' : List TraceEvent)
    (fr : FileResult) (mime : Option String)
    (hbytes : ∀ x ∈ B, x < 256)
    (hmiss : _internal_cached_lookup opts.cache source = none) :
    (_internal_base64load_resolve_source_sync source opts env =
        (.ok { file := f, file_buffer := B, mimetype := none }, ev) →
      (_internal_base64load_sync source (some M) opts env).result =
        .ok ("\"data:" ++ M ++ ";base64," ++ bufferToBase64 B ++ "\"") ∧
      decodeBase64 (bufferToBase64 B) = B) ∧
    (_internal_base64load_resolve_source_async source mime opts env = (.ok fr, ev') →
      fr.file_buffer = B → fr.mimetype = some M →
      (_internal_base64load_async source mime opts env).result =
        .ok ("\"data:" ++ M ++ ";base64," ++ bufferToBase64 B ++ "\"") ∧
      decodeBase64 (bufferToBase64 B) = B) := by
  constructor
  · intro hres
    refine ⟨?_, bufferToBase64_roundtrip B hbytes⟩
    simp [_internal_base64load_sync, hmiss, hres, jsTemplateOptStr]
  · intro hres hbuf hmime
    refine ⟨?_, bufferToBase64_roundtrip B hbytes⟩
    simp [_internal_base64load_async, hmiss, hres, hbuf, hmime, jsTemplateOptStr]

/-- Witness for C2: both variants at the concrete world `envA`, with the
decoded payload giving back the file bytes `[71, 73, 70]`. -/
theorem C2_output_roundtrip_witness :
    ((_internal_base64load_sync "a.png" (some "image/gif") optsA envA).result =
      .ok ("\"data:" ++ "image/gif" ++ ";base64," ++ bufferToBase64 [71, 73, 70] ++ "\"") ∧
     decodeBase64 (bufferToBase64 [71, 73, 70]) = [71, 73, 70]) ∧
    ((_internal_base64load_async "a.png" (some "image/gif") optsA envA).result =
      .ok ("\"data:" ++ "image/gif" ++ ";base64," ++ bufferToBase64 [71, 73, 70] ++ "\"") ∧
     decodeBase64 (bufferToBase64 [71, 73, 70]) = [71, 73, 70]) :=
  ⟨(C2_output_roundtrip "a.png" "image/gif" optsA envA [71, 73, 70] "/b/a.png"
      [.lstat "/b/a.png", .readFile "/b/a.png"] [.lstat "/b/a.png", .readFile "/b/a.png"]
      { file := "a.png", file_buffer := [71, 73, 70], mimetype := some "image/gif" }
      (some "image/gif") (by decide) (by decide)).1 (by decide),
   (C2_output_roundtrip "a.png" "image/gif" optsA envA [71, 73, 70] "/b/a.png"
      [.lstat "/b/a.png", .readFile "/b/a.png"] [.lstat "/b/a.png", .readFile "/b/a.png"]
      { file := "a.png", file_buffer := [71, 73, 70], mimetype := some "image/gif" }
      (some "image/gif") (by decide) (by decide)).2 (by decide) (by decide) (by decide)⟩

theorem isUrl_data_ne_empty (s : String) (h : isUrl s = true) : s.data.isEmpty = false := by
  cases hd : s.data with
  | nil => simp [isUrl, strStartsWith, hd, List.isPrefixOf] at h
  | cons c rest => rfl

/-- C4: a source that classifies as a remote URL is rejected by argument
validation in sync mode with the `RemoteRequiresAsync` message — validation
takes no options at all, so the `remote` configuration value cannot influence
it — and, for the second half ("sync calls never attempt network access"),
the whole sync encoder's I/O trace never contains a fetch event, for any
source, mimetype, options and world. -/
theorem C4_sync_url_rejected (source : String) (arg1 : SassValue)
    (mime : Option String) (opts : Base64loadOptions) (env : Env)
    (hurl : isUrl source = true) :
    _internal_base64load_valid_arguments (.str source) arg1 true =
      .error ("base64load(" ++ source ++ ",$mimetype) To use the async variant for url loading, set remote = true in your options") ∧
    ((_internal_base64load_sync source mime opts env).events.all
      (fun e => ! e.isFetch)) = true := by
  constructor
  · simp [_internal_base64load_valid_arguments, isUrl_data_ne_empty source hurl, hurl]
  · cases hcl : _internal_cached_lookup opts.cache source with
    | some w => simp [_internal_base64load_sync, hcl]
    | none =>
      cases hfs : env.fs (_internal_base64load_resolved_file source opts env.procCwd) with
      | none =>
        simp [_internal_base64load_sync, hcl, _internal_base64load_resolve_source_sync,
          hfs, TraceEvent.isFetch]
      | some node =>
        cases node <;>
          simp [_internal_base64load_sync, hcl, _internal_base64load_resolve_source_sync,
            hfs, TraceEvent.isFetch]

/-- Witness for C4 at the URL `http://x.y/a.png` and the world `envB` whose
transport stub would fail any request. -/
theorem C4_sync_url_rejected_witness :
    _internal_base64load_valid_arguments (.str "http://x.y/a.png") .null true =
      .error ("base64load(" ++ "http://x.y/a.png" ++ ",$mimetype) To use the async variant for url loading, set remote = true in your options") ∧
    ((_internal_base64load_sync "http://x.y/a.png" none optsA envB).events.all
      (fun e => ! e.isFetch)) = true :=
  C4_sync_url_rejected "http://x.y/a.png" .null none optsA envB (by decide)

/-- C5: on the async resolution path, a URL source with `remote = false`
fails with the `RemoteDisabled` message and an empty I/O trace, for every
world — in particular whether or not a fetch capability is installed (the
error precedes loading `node-fetch`), and with no fallback to filesystem
resolution (the result does not depend on `env.fs`). -/
theorem C5_remote_disabled (source : String) (mime : Option String)
    (opts : Base64loadOptions) (env : Env)
    (hurl : isUrl source = true) (hremote : opts.remote = false) :
    _internal_base64load_resolve_source_async source mime opts env =
      (.error ("base64load(" ++ source ++ ",$mimetype) To use remote url loading, set remote = true in your options"), []) := by
  simp [_internal_base64load_resolve_source_async, hurl, hremote]

/-- Witness for C5: concrete URL, `remote = false`, with the transport stub
of `envB` installed — the stub is never consulted. -/
theorem C5_remote_disabled_witness :
    _internal_base64load_resolve_source_async "http://x.y/a.png" none optsA envB =
      (.error ("base64load(" ++ "http://x.y/a.png" ++ ",$mimetype) To use remote url loading, set remote = true in your options"), []) :=
  C5_remote_disabled "http://x.y/a.png" none optsA envB (by decide) rfl

/-- C6: for a non-URL source with an explicit non-empty mimetype and the same
options and world, the async encoder returns exactly the sync encoder's
result (same output string, same cache, same trace) — detection is skipped
because the supplied mimetype is kept, and the async resolver delegates to
the local sync resolver. -/
theorem C6_sync_async_agree (source m : String) (opts : Base64loadOptions) (env : Env)
    (hurl : isUrl source = false) (hm : m.data.isEmpty = false) :
    _internal_base64load_async source (some m) opts env =
      _internal_base64load_sync source (some m) opts env := by
  cases hcl : _internal_cached_lookup opts.cache source with
  | some w => simp [_internal_base64load_async, _internal_base64load_sync, hcl]
  | none =>
    cases hfs : env.fs (_internal_base64load_resolved_file source opts env.procCwd) with
    | none =>
      simp [_internal_base64load_async, _internal_base64load_sync, hcl,
        _internal_base64load_resolve_source_async, hurl,
        _internal_base64load_resolve_source_sync, hfs]
    | some node =>
      cases node with
      | other =>
        simp [_internal_base64load_async, _internal_base64load_sync, hcl,
          _internal_base64load_resolve_source_async, hurl,
          _internal_base64load_resolve_source_sync, hfs]
      | file bytes =>
        simp [_internal_base64load_async, _internal_base64load_sync, hcl,
          _internal_base64load_resolve_source_async, hurl,
          _internal_base64load_resolve_source_sync, hfs, finishResolveAsync,
          _internal_base64load_get_mimetype_async, mimeMissing, hm, jsTemplateOptStr]

/-- Witness for C6: sync and async encodes of `a.png` with mimetype
`image/gif` coincide in the concrete world `envA`. -/
theorem C6_sync_async_agree_witness :
    _internal_base64load_async "a.png" (some "image/gif") optsA envA =
      _internal_base64load_sync "a.png" (some "image/gif") optsA envA :=
  C6_sync_async_agree "a.png" "image/gif" optsA envA (by decide) (by decide)

/-- C7: a source starting with the path separator is used verbatim as the
file path, for every options value (so `cwd` is ignored entirely); a source
not starting with the separator resolves via `path.resolve` against
`options.cwd` when that is set (a non-empty string — JS truthiness of
`options.cwd || process.cwd()`), and against the process working directory
when `cwd` is unset. -/
theorem C7_path_resolution (source c : String) (opts : Base64loadOptions)
    (procCwd : String) :
    (strStartsWith source "/" = true →
      _internal_base64load_resolved_file source opts procCwd = source) ∧
    (strStartsWith source "/" = false → opts.cwd = some c → c.data.isEmpty = false →
      _internal_base64load_resolved_file source opts procCwd = pathResolve procCwd c source) ∧
    (strStartsWith source "/" = false → opts.cwd = none →
      _internal_base64load_resolved_file source opts procCwd =
        pathResolve procCwd procCwd source) := by
  refine ⟨fun h => ?_, fun h hc hcne => ?_, fun h hc => ?_⟩
  · simp [_internal_base64load_resolved_file, h]
  · simp [_internal_base64load_resolved_file, h, hc, hcne]
  · simp [_internal_base64load_resolved_file, h, hc]

/-- Witness for C7: an absolute source is kept verbatim; a relative source
resolves against the configured `/b`, and against the process directory `/c`
when no `cwd` is configured. -/
theorem C7_path_resolution_witness :
    _internal_base64load_resolved_file "/abs/x.gif" optsA "/c" = "/abs/x.gif" ∧
    _internal_base64load_resolved_file "a.png" optsA "/c" = pathResolve "/c" "/b" "a.png" ∧
    _internal_base64load_resolved_file "a.png" { optsA with cwd := none } "/c" =
      pathResolve "/c" "/c" "a.png" :=
  ⟨(C7_path_resolution "/abs/x.gif" "" optsA "/c").1 (by decide),
   (C7_path_resolution "a.png" "/b" optsA "/c").2.1 (by decide) rfl (by decide),
   (C7_path_resolution "a.png" "" { optsA with cwd := none } "/c").2.2 (by decide) rfl⟩

/-- Counterexample for C8: the signature constant the factory actually uses
is `base64load($source,$mimetype:null)` — with no spaces — so it differs from
the claimed literal `base64load($source, $mimetype: null)`; concretely, a
default factory call returns a handler carrying the space-free string. -/
theorem C8_signature_counterexample :
    base64Loader none none =
      .ok ({ signature := "base64load($source,$mimetype:null)", callback := .sync }, none) ∧
    SASS_FUNCTION_SIGNATURE ≠ "base64load($source, $mimetype: null)" :=
  ⟨rfl, by decide⟩

/-- C8 (amended): for every options value and host configuration, the
signature field of the handler returned by the factory — and the key under
which the callback is inserted into the host's function table — is exactly
the space-free string `base64load($source,$mimetype:null)`. -/
theorem C8_signature_registered (inp : Option Base64loadOptionsInput)
    (so : Option SassConfig) (h : SassHandler) (so' : Option SassConfig)
    (hok : base64Loader inp so = .ok (h, so')) :
    h.signature = "base64load($source,$mimetype:null)" ∧
    (∀ s', so' = some s' →
      (s'.functions.getD []).lookup "base64load($source,$mimetype:null)" =
        some h.callback) := by
  cases so with
  | none =>
    simp only [base64Loader, Except.ok.injEq, Prod.mk.injEq] at hok
    obtain ⟨hh, hso⟩ := hok
    subst hh
    exact ⟨rfl, fun s' hs => by rw [← hso] at hs; exact absurd hs (by simp)⟩
  | some s0 =>
    cases hl : (match s0.functions with
        | some fns => fns
        | none => []).lookup SASS_FUNCTION_SIGNATURE with
    | some k => simp [base64Loader, hl] at hok
    | none =>
      simp only [base64Loader, hl, Except.ok.injEq, Prod.mk.injEq] at hok
      obtain ⟨hh, hso⟩ := hok
      subst hh
      refine ⟨rfl, fun s' hs => ?_⟩
      rw [← hso] at hs
      simp only [Option.some.injEq] at hs
      subst hs
      simp [SASS_FUNCTION_SIGNATURE, List.lookup]

/-- Witness for C8 (amended): registering into a fresh host configuration
inserts the sync callback under the space-free signature. -/
theorem C8_signature_registered_witness :
    ({ signature := SASS_FUNCTION_SIGNATURE, callback := CallbackKind.sync } : SassHandler).signature
        = "base64load($source,$mimetype:null)" ∧
    (∀ s', (some { functions := some [(SASS_FUNCTION_SIGNATURE, CallbackKind.sync)] } : Option SassConfig) = some s' →
      (s'.functions.getD []).lookup "base64load($source,$mimetype:null)" =
        some ({ signature := SASS_FUNCTION_SIGNATURE, callback := CallbackKind.sync } : SassHandler).callback) :=
  C8_signature_registered none (some { functions := none })
    { signature := SASS_FUNCTION_SIGNATURE, callback := .sync }
    (some { functions := some [(SASS_FUNCTION_SIGNATURE, CallbackKind.sync)] }) (by decide)

/-- C3 is a code bug: in async mode an explicitly supplied empty-string
mimetype passes validation — the line-298 guard `mime && (...)`
short-circuits on the falsy empty string, making its `!mime.length` part
unreachable — and the empty string is carried forward into the parsed
arguments (and hence into encoding, where it is later treated as absent),
contradicting the code's own comment that `$mimetype` "must be null or not
empty in async" mode. -/
theorem C3_empty_mime_accepted_async :
    _internal_base64load_valid_arguments (.str "a.png") (.str "") false =
      .ok { source := "a.png", mime := some "" } := rfl

theorem cached_lookup_none (source : String) :
    _internal_cached_lookup none source = none := rfl

/-- C10: when the configured cache associates the raw source key with the
empty string — or yields nothing at all — both encoders treat the lookup as a
miss: they behave exactly like the cache-less call (same result, same I/O
trace, so resolution and encoding run again), and on success the cache
afterwards yields the newly constructed value for the source key. -/
theorem C10_falsy_cache_is_miss (source : String) (mime : Option String)
    (opts : Base64loadOptions) (c : Cache) (env : Env)
    (hc : opts.cache = some c)
    (hfalsy : cacheRawValue source c = none ∨ cacheRawValue source c = some "") :
    ((_internal_base64load_sync source mime opts env).result =
        (_internal_base64load_sync source mime { opts with cache := none } env).result ∧
      (_internal_base64load_sync source mime opts env).events =
        (_internal_base64load_sync source mime { opts with cache := none } env).events ∧
      ∀ v, (_internal_base64load_sync source mime opts env).result = .ok v →
        _internal_cached_lookup (_internal_base64load_sync source mime opts env).cache source
          = some v) ∧
    ((_internal_base64load_async source mime opts env).result =
        (_internal_base64load_async source mime { opts with cache := none } env).result ∧
      (_internal_base64load_async source mime opts env).events =
        (_internal_base64load_async source mime { opts with cache := none } env).events ∧
      ∀ v, (_internal_base64load_async source mime opts env).result = .ok v →
        _internal_cached_lookup (_internal_base64load_async source mime opts env).cache source
          = some v) := by
  have hmiss : _internal_cached_lookup opts.cache source = none := by
    rw [hc]
    simpa [_internal_cached_lookup] using fromCache_falsy_raw source c hfalsy
  have hrf : _internal_base64load_resolved_file source { opts with cache := none } env.procCwd
      = _internal_base64load_resolved_file source opts env.procCwd := by
    simp [_internal_base64load_resolved_file]
  have hrs : _internal_base64load_resolve_source_sync source { opts with cache := none } env
      = _internal_base64load_resolve_source_sync source opts env := by
    simp [_internal_base64load_resolve_source_sync, hrf]
  have hra : _internal_base64load_resolve_source_async source mime { opts with cache := none } env
      = _internal_base64load_resolve_source_async source mime opts env := by
    simp [_internal_base64load_resolve_source_async, hrs]
  constructor
  · rcases hres : _internal_base64load_resolve_source_sync source opts env with ⟨r, ev⟩
    refine ⟨?_, ?_, ?_⟩
    · cases r <;> simp [_internal_base64load_sync, hmiss, hres, hrs, cached_lookup_none]
    · cases r <;> simp [_internal_base64load_sync, hmiss, hres, hrs, cached_lookup_none]
    · intro v hv
      obtain ⟨c', hcache, hfrom⟩ := sync_ok_cached source mime opts c env v hc hv
      rw [hcache]
      simpa [_internal_cached_lookup] using hfrom
  · rcases hres : _internal_base64load_resolve_source_async source mime opts env with ⟨r, ev⟩
    refine ⟨?_, ?_, ?_⟩
    · cases r <;> simp [_internal_base64load_async, hmiss, hres, hra, cached_lookup_none]
    · cases r <;> simp [_internal_base64load_async, hmiss, hres, hra, cached_lookup_none]
    · intro v hv
      obtain ⟨c', hcache, hfrom⟩ := async_ok_cached source mime opts c env v hc hv
      rw [hcache]
      simpa [_internal_cached_lookup] using hfrom

/-- Witness for C10: with the cache of `optsC` holding `("a.png", "")`, the
sync encode behaves like the cache-less call and afterwards the cache yields
the freshly built data URI for `a.png`. -/
theorem C10_falsy_cache_is_miss_witness :
    (_internal_base64load_sync "a.png" (some "image/gif") optsC envA).result =
      (_internal_base64load_sync "a.png" (some "image/gif") { optsC with cache := none } envA).result ∧
    _internal_cached_lookup (_internal_base64load_sync "a.png" (some "image/gif") optsC envA).cache "a.png" =
      some "\"data:image/gif;base64,R0lG\"" :=
  ⟨(C10_falsy_cache_is_miss "a.png" (some "image/gif") optsC (.map [("a.png", "")]) envA
      rfl (.inr (by decide))).1.1,
   (C10_falsy_cache_is_miss "a.png" (some "image/gif") optsC (.map [("a.png", "")]) envA
      rfl (.inr (by decide))).1.2.2 "\"data:image/gif;base64,R0lG\"" (by decide)⟩

theorem valid_arguments_error_echoes (source : String) (arg1 : SassValue) (sync : Bool)
    (m : String) (ha : arg1 ≠ SassValue.other)
    (h : _internal_base64load_valid_arguments (.str source) arg1 sync = .error m) :
    source.data <:+: m.data := by
  simp only [_internal_base64load_valid_arguments] at h
  split at h
  · rename_i he
    simp only [Except.error.injEq] at h
    subst h
    have hsrc : source.data = [] := by
      cases hd : source.data with
      | nil => rfl
      | cons c rest => rw [hd] at he; simp at he
    rw [hsrc]
    exact List.nil_infix
  · split at h
    · simp only [Except.error.injEq] at h
      subst h
      exact str_infix_parts source _ "base64load(".data
        ",$mimetype) To use the async variant for url loading, set remote = true in your options".data
        (by simp)
    · cases arg1 with
      | other => exact absurd rfl ha
      | null =>
        split at h
        · rename_i e heq
          simp at heq
        · rename_i mimeVal heq
          simp at heq
          subst heq
          split at h
          · simp only [Except.error.injEq] at h
            subst h
            exact str_infix_parts source _ "base64load(".data
              (",$mimetype) Requires $mimetype argument"
                ++ (if sync then " in sync mode" else "")).data (by simp)
          · simp at h
      | str t =>
        split at h
        · rename_i e heq
          simp at heq
        · rename_i mimeVal heq
          simp at heq
          subst heq
          split at h
          · simp only [Except.error.injEq] at h
            subst h
            exact str_infix_parts source _ "base64load(".data
              (",$mimetype) Requires $mimetype argument"
                ++ (if sync then " in sync mode" else "")).data (by simp)
          · simp at h

theorem resolve_sync_error_echoes (source : String) (opts : Base64loadOptions) (env : Env)
    (m : String) (ev : List TraceEvent)
    (h : _internal_base64load_resolve_source_sync source opts env = (.error m, ev)) :
    source.data <:+: m.data := by
  simp only [_internal_base64load_resolve_source_sync] at h
  split at h
  · simp at h
  · simp only [Prod.mk.injEq, Except.error.injEq] at h
    obtain ⟨h1, h2⟩ := h
    subst h1
    exact str_infix_parts source _ "base64load(".data
      (",$mimetype) File not found: "
        ++ _internal_base64load_resolved_file source opts env.procCwd).data (by simp)

theorem get_mimetype_error_echoes (source : String) (mime : Option String)
    (buf : Option (List Nat)) (fp : Option String) (env : Env) (ft : FileTypeModule)
    (m : String) (ev : List TraceEvent)
    (hft : env.fileType = some ft)
    (h : _internal_base64load_get_mimetype_async source mime buf fp env = (.error m, ev)) :
    source.data <:+: m.data := by
  simp only [_internal_base64load_get_mimetype_async, hft] at h
  split at h
  · rename_i e heq
    split at heq <;> simp at heq
  · rename_i mval ev2 heq
    clear heq
    split at h
    · rename_i s
      split at h
      · simp only [Prod.mk.injEq, Except.error.injEq] at h
        obtain ⟨h1, h2⟩ := h
        subst h1
        exact str_infix_parts source _ "base64load(".data
          ",$mimetype) Failed to detect $mimetype from $source".data (by simp)
      · simp at h
    · simp only [Prod.mk.injEq, Except.error.injEq] at h
      obtain ⟨h1, h2⟩ := h
      subst h1
      exact str_infix_parts source _ "base64load(".data
        ",$mimetype) Failed to detect $mimetype from $source".data (by simp)

theorem finish_error_echoes (source : String) (mime : Option String) (buf : List Nat)
    (fp : Option String) (env : Env) (ft : FileTypeModule) (m : String)
    (ev0 ev : List TraceEvent) (hft : env.fileType = some ft)
    (h : finishResolveAsync source mime buf fp env ev0 = (.error m, ev)) :
    source.data <:+: m.data := by
  simp only [finishResolveAsync] at h
  split at h
  · rename_i e ev2 heq
    simp only [Prod.mk.injEq, Except.error.injEq] at h
    obtain ⟨h1, h2⟩ := h
    subst h1
    exact get_mimetype_error_echoes source mime (some buf) fp env ft _ ev2 hft heq
  · simp at h

theorem resolve_async_error_echoes (source : String) (mime : Option String)
    (opts : Base64loadOptions) (env : Env) (ft : FileTypeModule)
    (fetchFn : String → FetchOutcome) (m : String) (ev : List TraceEvent)
    (hft : env.fileType = some ft) (hfetch : env.fetch = some fetchFn)
    (h : _internal_base64load_resolve_source_async source mime opts env = (.error m, ev)) :
    source.data <:+: m.data := by
  simp only [_internal_base64load_resolve_source_async, hfetch] at h
  split at h
  · split at h
    · simp only [Prod.mk.injEq, Except.error.injEq] at h
      obtain ⟨h1, h2⟩ := h
      subst h1
      exact str_infix_parts source _ "base64load(".data
        ",$mimetype) To use remote url loading, set remote = true in your options".data
        (by simp)
    · split at h
      · rename_i err heq
        simp only [Prod.mk.injEq, Except.error.injEq] at h
        obtain ⟨h1, h2⟩ := h
        subst h1
        exact str_infix_parts source _ "base64load(".data
          (",$mimetype) Internal error fetching $source: " ++ err).data (by simp)
      · rename_i result heq
        split at h
        · simp only [Prod.mk.injEq, Except.error.injEq] at h
          obtain ⟨h1, h2⟩ := h
          subst h1
          exact str_infix_parts source _ "base64load(".data
            (",$mimetype) Error " ++ toString result.status ++ "#" ++ result.statusText
              ++ " while fetching $source").data (by simp)
        · exact finish_error_echoes source _ result.body none env ft m
            [.fetch source] ev hft h
  · split at h
    · rename_i e ev2 heq
      simp only [Prod.mk.injEq, Except.error.injEq] at h
      obtain ⟨h1, h2⟩ := h
      subst h1
      exact resolve_sync_error_echoes source opts env e ev2 heq
    · rename_i fr ev2 heq
      exact finish_error_echoes source mime fr.file_buffer (some fr.file) env ft m
        ev2 ev hft h

/-- Counterexample for C9: calling the sync encoder with source `a.png` and
mime `image/png` on a world without that file raises the not-found error, and
that message does not contain the original mime call value `image/png`
anywhere — the messages carry the literal placeholder `$mimetype` instead. -/
theorem C9_mime_not_echoed_counterexample :
    (_internal_base64load_sync "a.png" (some "image/png") optsA envB).result =
      .error "base64load(a.png,$mimetype) File not found: /b/a.png" ∧
    ¬ ("image/png".data <:+:
        "base64load(a.png,$mimetype) File not found: /b/a.png".data) :=
  ⟨by decide, by decide⟩

/-- C9 (amended): every error message the loader itself constructs once the
source argument has been extracted as a string — argument validation, local
resolution, mimetype detection and async (remote or local) resolution, the
latter two taken with the optional capability modules present, since the
missing-dependency messages carry only the module requirement — contains the
original `source` call value as a substring.  The mime call value is not
echoed; the messages carry the literal `$mimetype` placeholder instead. -/
theorem C9_errors_echo_source (source : String) (arg1 : SassValue) (sync : Bool)
    (mime : Option String) (buf : Option (List Nat)) (fp : Option String)
    (opts : Base64loadOptions) (env : Env) (ft : FileTypeModule)
    (fetchFn : String → FetchOutcome) (m : String) (ev : List TraceEvent) :
    (arg1 ≠ SassValue.other →
      _internal_base64load_valid_arguments (.str source) arg1 sync = .error m →
      source.data <:+: m.data) ∧
    (_internal_base64load_resolve_source_sync source opts env = (.error m, ev) →
      source.data <:+: m.data) ∧
    (env.fileType = some ft →
      _internal_base64load_get_mimetype_async source mime buf fp env = (.error m, ev) →
      source.data <:+: m.data) ∧
    (env.fileType = some ft → env.fetch = some fetchFn →
      _internal_base64load_resolve_source_async source mime opts env = (.error m, ev) →
      source.data <:+: m.data) :=
  ⟨fun ha h => valid_arguments_error_echoes source arg1 sync m ha h,
   fun h => resolve_sync_error_echoes source opts env m ev h,
   fun hft h => get_mimetype_error_echoes source mime buf fp env ft m ev hft h,
   fun hft hf h => resolve_async_error_echoes source mime opts env ft fetchFn m ev hft hf h⟩

/-- Witness for C9 (amended): the concrete not-found message for source
`a.png` contains `a.png`. -/
theorem C9_errors_echo_source_witness :
    "a.png".data <:+: "base64load(a.png,$mimetype) File not found: /b/a.png".data :=
  (C9_errors_echo_source "a.png" .null true none none none optsA envB
      ⟨fun _ => none, fun _ => none⟩ (fun _ => .netError "x")
      "base64load(a.png,$mimetype) File not found: /b/a.png"
      [.lstat "/b/a.png"]).2.1 (by decide)
